import Mathlib

/-!
Verification of the FESTIM hydrogen-transport simulation core.

This file gives a shallow embedding of the weak-form residual construction
(`formulation` in Cas_test_solubility/cas_test_solubility.py and
`HydrogenTransportProblem.create_formulation` in
festim/hydrogen_transport_problem.py), the time-stepping and post-processing
logic of `Simulation` (FESTIM/generic_simulation.py), and the property
accessors and derived-quantity validation of FESTIM/post_processing.py,
and proves or refutes the specification claims about them.
-/

namespace FESTIM

/-- Symbolic weak-form scalar expressions.  Each constructor mirrors an
operation used when the Python code builds UFL expressions:
`sol i`, `prev i`, `test i` are `solutions[i]`, `previous_solutions[i]`,
`testfunctions[i]`; `dtv` is the stepsize constant `dt`; `temp`/`tempPrev`
are the temperature fields `T`/`T_n`; `kB` is the Boltzmann constant
`FESTIM.k_B`; `trapDensity k` is the density expression of trap `k`;
`sVar` is the solubility property field `S`; `diffCoeff vol spe` is
`vol.material.get_diffusion_coefficient(mesh, T, spe)`;
`bcFlux i solute` is `bc.create_form_for_flux(T, solute)` for the i-th
boundary condition; `proj` is `fenics.project`. -/
inductive FExpr where
  | const (q : ℚ)
  | sol (i : ℕ)
  | prev (i : ℕ)
  | test (i : ℕ)
  | dtv
  | temp
  | tempPrev
  | kB
  | trapDensity (k : ℕ)
  | sVar
  | diffCoeff (vol : ℕ) (spe : ℕ)
  | expE (a : FExpr)
  | grad (a : FExpr)
  | dotP (a b : FExpr)
  | proj (a : FExpr)
  | bcFlux (i : ℕ) (solute : FExpr)
  | add (a b : FExpr)
  | sub (a b : FExpr)
  | mul (a b : FExpr)
  | div (a b : FExpr)
  | neg (a : FExpr)
deriving DecidableEq, Repr

/-- Integration measures: `dxAll` is the unrestricted `dx`, `dxV id` is
`dx(subdomain_id)`, `dsS id` is `ds(surface_id)`. -/
inductive Meas where
  | dxAll
  | dxV (id : ℕ)
  | dsS (id : ℕ)
deriving DecidableEq, Repr

/-- A residual is the list of terms successively added to `F` by the
Python code (`F = 0`, then `F += expr * measure`), in program order. -/
abbrev Residual := List (FExpr × Meas)

/-- The factor `exp(-E/k_B/T)` as written in the Python source (`E` a
literal coefficient, `Tv` the temperature expression used). -/
def arrhFactor (E : ℚ) (Tv : FExpr) : FExpr :=
  .expE (.div (.div (.neg (.const E)) .kB) Tv)

/-- A material entry of `parameters["materials"]` in
cas_test_solubility.py (fields read by `formulation`). -/
structure CasMaterial where
  id : ℕ
  D_0 : ℚ
  E_diff : ℚ
  S_0 : ℚ
  E_S : ℚ
  alpha : ℚ
  beta : ℚ
deriving DecidableEq, Repr

/-- A trap entry of `parameters["traps"]` in cas_test_solubility.py:
its energy and the list of subdomain ids it lives on (the Python code
wraps a lone id into a one-element list before iterating). -/
structure CasTrap where
  energy : ℚ
  materials : List ℕ
deriving DecidableEq, Repr

/-- The parameters consumed by `formulation` in cas_test_solubility.py. -/
structure CasParameters where
  materials : List CasMaterial
  traps : List CasTrap
deriving DecidableEq, Repr

/-- Modelled from the spec: `FESTIM.helpers.find_material_from_id` is not
under src/; per §3 each subdomain id referenced is looked up among the
declared materials, "every mesh subdomain id referenced by geometry must
map to exactly one Material".  We return the first material whose `id`
matches. -/
def find_material_from_id (materials : List CasMaterial) (id : ℕ) :
    Option CasMaterial :=
  materials.find? (fun m => m.id = id)

/-- Frequency factor `v_0 = 1e13` from cas_test_solubility.py line 21. -/
def v_0 : ℚ := 10 ^ 13

/-- Mobile time-derivative term added by `formulation` (transient only):
`((S_0*exp(-E_S/k_B/T)*solutions[0] - S_0*exp(-E_S/k_B/T_n)*previous_solutions[0])/dt) * testfunctions[0] * dx(subdomain)`. -/
def casMobileDtTerm (m : CasMaterial) : FExpr × Meas :=
  (.mul (.div (.sub
      (.mul (.mul (.const m.S_0) (arrhFactor m.E_S .temp)) (.sol 0))
      (.mul (.mul (.const m.S_0) (arrhFactor m.E_S .tempPrev)) (.prev 0)))
      .dtv)
    (.test 0), .dxV m.id)

/-- Diffusion term added by `formulation`:
`dot(D_0*exp(-E_diff/k_B/T)*grad(S_0*exp(-E_S/k_B/T)*solutions[0]), grad(testfunctions[0])) * dx(subdomain)`. -/
def casDiffusionTerm (m : CasMaterial) : FExpr × Meas :=
  (.dotP
    (.mul (.mul (.const m.D_0) (arrhFactor m.E_diff .temp))
      (.grad (.mul (.mul (.const m.S_0) (arrhFactor m.E_S .temp)) (.sol 0))))
    (.grad (.test 0)), .dxV m.id)

/-- Trap time-derivative term (transient only):
`((solutions[i] - previous_solutions[i])/dt) * testfunctions[i] * dx`. -/
def casTrapDtTerm (i : ℕ) : FExpr × Meas :=
  (.mul (.div (.sub (.sol i) (.prev i)) .dtv) (.test i), .dxAll)

/-- Capture term added into the trap equation:
`- D_0*exp(-E_diff/k_B/T)/alpha/alpha/beta * S_0*exp(-E_S/k_B/T) * solutions[0] * (trap_density - solutions[i]) * testfunctions[i] * dx(subdomain)`
(Python parses the leading `-` as negation of `D_0`, then a left-associated
chain of `*` and `/`). -/
def casCaptureTerm (m : CasMaterial) (k i : ℕ) (sub : ℕ) : FExpr × Meas :=
  (.mul (.mul (.mul (.mul (.mul
      (.div (.div (.div
        (.mul (.neg (.const m.D_0)) (arrhFactor m.E_diff .temp))
        (.const m.alpha)) (.const m.alpha)) (.const m.beta))
      (.const m.S_0))
      (arrhFactor m.E_S .temp))
      (.sol 0))
      (.sub (.trapDensity k) (.sol i)))
      (.test i), .dxV sub)

/-- Release term added into the trap equation:
`v_0*exp(-energy/k_B/T)*solutions[i] * testfunctions[i] * dx(subdomain)`. -/
def casReleaseTerm (energy : ℚ) (i : ℕ) (sub : ℕ) : FExpr × Meas :=
  (.mul (.mul (.mul (.const v_0) (arrhFactor energy .temp)) (.sol i))
    (.test i), .dxV sub)

/-- Trap-to-mobile coupling term, added unconditionally (outside the
`if transient` guard, cas_test_solubility.py lines 70-71):
`((solutions[i] - previous_solutions[i])/dt) * testfunctions[0] * dx`. -/
def casCouplingTerm (i : ℕ) : FExpr × Meas :=
  (.mul (.div (.sub (.sol i) (.prev i)) .dtv) (.test 0), .dxAll)

/-- The terms contributed by one trap (index `i = k+1` in the solution
vector, `k` the position in `parameters["traps"]`). -/
def casTrapTerms (p : CasParameters) (transient : Bool) (k : ℕ)
    (trap : CasTrap) : Residual :=
  (if transient then [casTrapDtTerm (k + 1)] else [])
  ++ (trap.materials.flatMap fun sub =>
        match find_material_from_id p.materials sub with
        | some m => [casCaptureTerm m k (k + 1) sub,
                     casReleaseTerm trap.energy (k + 1) sub]
        | none => [])
  ++ [casCouplingTerm (k + 1)]

/-- Shallow embedding of `formulation` (cas_test_solubility.py lines
7-73): the residual terms added to `F`, in program order.  The material
lookup failure case (`find_material_from_id` returning `none`) cannot
occur for well-formed parameters (§3 invariant) and contributes nothing. -/
def casFormulation (p : CasParameters) (transient : Bool) : Residual :=
  (p.materials.flatMap fun m =>
    (if transient then [casMobileDtTerm m] else []) ++ [casDiffusionTerm m])
  ++ (p.traps.enum.flatMap fun kt => casTrapTerms p transient kt.1 kt.2)

/-- A `festim.Source` as consumed by `HydrogenTransportProblem`
(species index and a value; `create_formulation` only counts them). -/
structure HSource where
  species : ℕ
  value : ℚ
deriving DecidableEq, Repr

/-- The data of a `HydrogenTransportProblem` that
`create_formulation` reads: the species list (by index), the volume
subdomain ids, and the declared sources. -/
structure HTProblem where
  nspecies : ℕ
  volumes : List ℕ
  sources : List HSource
deriving DecidableEq, Repr

/-- Terms contributed by species `i` in
`HydrogenTransportProblem.create_formulation`: for each volume
subdomain, `dot(D * grad(u), grad(v)) * dx(vol.id)` then
`((u - u_n) / dt) * v * dx(vol.id)`. -/
def hydroSpeciesTerms (volumes : List ℕ) (i : ℕ) : Residual :=
  volumes.flatMap fun vid =>
    [(.dotP (.mul (.diffCoeff vid i) (.grad (.sol i))) (.grad (.test i)),
      .dxV vid),
     (.mul (.div (.sub (.sol i) (.prev i)) .dtv) (.test i), .dxV vid)]

/-- Shallow embedding of `HydrogenTransportProblem.create_formulation`
(festim/hydrogen_transport_problem.py lines 310-341): raises
`NotImplementedError("Sources not implemented yet")` when more than one
source is declared; otherwise builds the residual from diffusion and
time-derivative terms only (the source and flux loops are commented
out in the source). -/
def create_formulation (p : HTProblem) : Except String Residual :=
  if p.sources.length > 1 then
    .error "Sources not implemented yet"
  else
    .ok ((List.range p.nspecies).flatMap fun i => hydroSpeciesTerms p.volumes i)

/-- Does an expression mention the stepsize `dt`?  Used to detect
time-derivative terms in a residual. -/
def mentionsDt : FExpr → Bool
  | .dtv => true
  | .expE a => mentionsDt a
  | .grad a => mentionsDt a
  | .proj a => mentionsDt a
  | .neg a => mentionsDt a
  | .bcFlux _ s => mentionsDt s
  | .add a b => mentionsDt a || mentionsDt b
  | .sub a b => mentionsDt a || mentionsDt b
  | .mul a b => mentionsDt a || mentionsDt b
  | .div a b => mentionsDt a || mentionsDt b
  | .dotP a b => mentionsDt a || mentionsDt b
  | _ => false

/-- A concrete material (subdomain id 1). -/
def casM1 : CasMaterial :=
  { id := 1, D_0 := 1, E_diff := 1/10, S_0 := 2, E_S := 1/5,
    alpha := 1, beta := 1 }

/-- A concrete trap living on subdomain 1. -/
def casT1 : CasTrap := { energy := 1, materials := [1] }

/-- A concrete one-material, one-trap parameter set for
cas_test_solubility.py. -/
def casP1 : CasParameters := { materials := [casM1], traps := [casT1] }

/-- Does an expression mention test function `i`?  Used to collect the
terms of a residual entering equation `i`. -/
def usesTest (i : ℕ) : FExpr → Bool
  | .test j => j = i
  | .expE a => usesTest i a
  | .grad a => usesTest i a
  | .proj a => usesTest i a
  | .neg a => usesTest i a
  | .bcFlux _ s => usesTest i s
  | .add a b => usesTest i a || usesTest i b
  | .sub a b => usesTest i a || usesTest i b
  | .mul a b => usesTest i a || usesTest i b
  | .div a b => usesTest i a || usesTest i b
  | .dotP a b => usesTest i a || usesTest i b
  | _ => false

/-- The capture rate entered with the opposite (positive) sign and the
mobile test function, as claim C3 asserts it appears in the
mobile-species equation. -/
def casCaptureTermMobile (m : CasMaterial) (k i : ℕ) (sub : ℕ) :
    FExpr × Meas :=
  (.mul (.mul (.mul (.mul (.mul
      (.div (.div (.div
        (.mul (.const m.D_0) (arrhFactor m.E_diff .temp))
        (.const m.alpha)) (.const m.alpha)) (.const m.beta))
      (.const m.S_0))
      (arrhFactor m.E_S .temp))
      (.sol 0))
      (.sub (.trapDensity k) (.sol i)))
      (.test 0), .dxV sub)

/-- The release rate entered with the opposite (negative) sign and the
mobile test function, as claim C3 asserts it appears in the
mobile-species equation. -/
def casReleaseTermMobile (energy : ℚ) (i : ℕ) (sub : ℕ) : FExpr × Meas :=
  (.neg (.mul (.mul (.mul (.const v_0) (arrhFactor energy .temp)) (.sol i))
    (.test 0)), .dxV sub)

/-- A value stored under a key of a material dict in
FESTIM/post_processing.py: either a plain number or a callable
(identified by an opaque id). -/
inductive MatProp where
  | num (q : ℚ)
  | callable (fid : ℕ)
deriving DecidableEq, Repr

/-- A material dict as read by the property classes of
FESTIM/post_processing.py: the subdomain id plus its key/value pairs. -/
structure PropMaterial where
  id : ℕ
  props : List (String × MatProp)
deriving DecidableEq, Repr

/-- Dict access `material[key]`; `none` models a Python `KeyError`. -/
def matLookup (m : PropMaterial) (key : String) : Option MatProp :=
  (m.props.find? (fun kv => kv.1 = key)).map (·.2)

/-- Modelled from the spec: `FESTIM.helpers.find_material_from_id` (not
under src/) applied to material dicts; per §3 each referenced subdomain
id maps to exactly one material, looked up by id. -/
def findPropMaterial (materials : List PropMaterial) (id : ℕ) :
    Option PropMaterial :=
  materials.find? (fun m => m.id = id)

/-- The value computed by a property accessor at a point: a plain
number, the Arrhenius value `pre * exp(-E/(k_B*Tx))`, or the result of
invoking callable `fid` with temperature `Tx`. -/
inductive PVal where
  | num (q : ℚ)
  | arrh (pre E Tx : ℚ)
  | callRes (fid : ℕ) (Tx : ℚ)
deriving DecidableEq, Repr

/-- Shallow embedding of `ArheniusCoeff.eval_cell`
(FESTIM/post_processing.py lines 164-171): find the material of the
cell's subdomain, read the pre-exponential and activation-energy
entries and return `D_0 * exp(-E_D/k_B/T(x))`.  `none` models the
exception Python raises when the material is missing, a key is absent,
or an entry is a callable (arithmetic on a function object). -/
def arheniusCoeff_eval (materials : List PropMaterial) (vm : ℕ → ℕ)
    (T : ℚ → ℚ) (preKey eKey : String) (cell : ℕ) (x : ℚ) : Option PVal :=
  match findPropMaterial materials (vm cell) with
  | none => none
  | some m =>
    match matLookup m preKey, matLookup m eKey with
    | some (.num pre), some (.num E) => some (.arrh pre E (T x))
    | _, _ => none

/-- Shallow embedding of `ThermalProp.eval_cell`
(FESTIM/post_processing.py lines 186-194): find the material of the
cell's subdomain; if the stored entry is callable invoke it with
`T(x)`, otherwise return the stored value itself. -/
def thermalProp_eval (materials : List PropMaterial) (vm : ℕ → ℕ)
    (T : ℚ → ℚ) (key : String) (cell : ℕ) (x : ℚ) : Option PVal :=
  match findPropMaterial materials (vm cell) with
  | none => none
  | some m =>
    match matLookup m key with
    | some (.callable fid) => some (.callRes fid (T x))
    | some (.num q) => some (.num q)
    | none => none

/-- `key in mat.keys()`. -/
def hasKey (m : PropMaterial) (key : String) : Bool :=
  m.props.any (fun kv => kv.1 = key)

/-- `create_properties` (FESTIM/post_processing.py lines 239-247)
returns a non-`None` solubility `S` iff some material has an `"S_0"`
key; `Simulation.initialise` (generic_simulation.py line 214) then sets
`chemical_pot = True` exactly when `S is not None`. -/
def chemicalPot (materials : List PropMaterial) : Bool :=
  materials.any (fun m => hasKey m "S_0")

/-- A boundary-condition dict as read by `Simulation.create_H_fluxes`:
its component (species or `"T"`), its type string and its surfaces. -/
structure BCspec where
  component : String
  bctype : String
  surfaces : List ℕ
deriving DecidableEq, Repr

/-- Modelled from the spec: `FESTIM.helpers.bc_types["dc"]` (not under
src/) lists the Dirichlet ("fixed-value") boundary-condition type
strings; Dirichlet kinds constrain degrees of freedom directly and all
other kinds contribute boundary integral terms (§3, §4.3). -/
def bc_types_dc : List String := ["dc"]

/-- Shallow embedding of `Simulation.create_H_fluxes`
(generic_simulation.py lines 346-371): the flux terms added to the
residual.  The solute expression handed to every
`bc.create_form_for_flux(T, solute)` is `solutions[0]*S` when
`chemical_pot` and `solutions[0]` otherwise; each non-Dirichlet,
non-temperature condition adds `-test_solute*bc.form*ds(surf)` per
surface. -/
def createHFluxes (chemical_pot : Bool) (bcs : List BCspec) : Residual :=
  let solute := if chemical_pot then FExpr.mul (.sol 0) .sVar else .sol 0
  bcs.enum.flatMap fun ib =>
    if ib.2.component ≠ "T" ∧ ib.2.bctype ∉ bc_types_dc then
      ib.2.surfaces.map fun surf =>
        (FExpr.mul (.neg (.test 0)) (.bcFlux ib.1 solute), Meas.dsS surf)
    else []

/-- Shallow embedding of `Simulation.update_post_processing_solutions`
(generic_simulation.py lines 553-568): the list `res` of
post-processing fields, with `res[0]` replaced by
`project(theta*S, V_DG1)` when `chemical_pot` (`c_m = theta * S`); the
mobile post-processing solution is `res[0]` and trap `i`'s is `res[i]`. -/
def updatePostProcessingSolutions (chemical_pot : Bool) (ntraps : ℕ) :
    List FExpr :=
  let res := (List.range (ntraps + 1)).map FExpr.sol
  if chemical_pot then res.set 0 (.proj (.mul (.sol 0) .sVar)) else res

/-- The `"solute"` entry of `label_to_function` in
`Simulation.run_post_processing` (generic_simulation.py lines 501-518):
initialised to the mobile post-processing solution, overridden to
`mobile.solution*S` when `chemical_pot` (the change of variable
`solute = theta*S`), then projected when some export needs the solute
as a `Function`. -/
def labelToFunctionSolute (chemical_pot : Bool) (needProject : Bool)
    (ntraps : ℕ) : FExpr :=
  let base := (updatePostProcessingSolutions chemical_pot ntraps).getD 0
    (.const 0)
  if chemical_pot then
    if needProject then .proj (.mul (.sol 0) .sVar) else .mul (.sol 0) .sVar
  else base

/-- An evaluation environment assigning rational values to the atoms of
`FExpr` (and opaque interpretations to `exp`, gradients, flux forms). -/
structure Env where
  sol : ℕ → ℚ
  prev : ℕ → ℚ
  test : ℕ → ℚ
  dtv : ℚ
  temp : ℚ
  tempPrev : ℚ
  kB : ℚ
  trapDensity : ℕ → ℚ
  sVar : ℚ
  diffCoeff : ℕ → ℕ → ℚ
  expF : ℚ → ℚ
  gradF : FExpr → ℚ
  dotF : FExpr → FExpr → ℚ
  bcF : ℕ → FExpr → ℚ

/-- Evaluation of a symbolic expression in an environment.  Projection
is value-preserving (exact-arithmetic semantics of `fenics.project`). -/
def evalF (env : Env) : FExpr → ℚ
  | .const q => q
  | .sol i => env.sol i
  | .prev i => env.prev i
  | .test i => env.test i
  | .dtv => env.dtv
  | .temp => env.temp
  | .tempPrev => env.tempPrev
  | .kB => env.kB
  | .trapDensity k => env.trapDensity k
  | .sVar => env.sVar
  | .diffCoeff v s => env.diffCoeff v s
  | .expE a => env.expF (evalF env a)
  | .grad a => env.gradF a
  | .dotP a b => env.dotF a b
  | .proj a => evalF env a
  | .bcFlux i s => env.bcF i s
  | .add a b => evalF env a + evalF env b
  | .sub a b => evalF env a - evalF env b
  | .mul a b => evalF env a * evalF env b
  | .div a b => evalF env a / evalF env b
  | .neg a => -evalF env a

/-- Python's `sum(list_of_expressions)`: a left fold of `+` over the
list starting from `0`. -/
def pySum (l : List FExpr) : FExpr := l.foldl .add (.const 0)

/-- The `"retention"` entry of `label_to_function` in
`Simulation.run_post_processing` (generic_simulation.py line 506):
`sum([mobile.post_processing_solution] + [trap.post_processing_solution
for trap in traps])`, the fields coming from
`update_post_processing_solutions`. -/
def retentionGeneric (chemical_pot : Bool) (ntraps : ℕ) : FExpr :=
  pySum (updatePostProcessingSolutions chemical_pot ntraps)

/-- The retention field of `run_post_processing` in
FESTIM/post_processing.py (lines 36-45): `res` is the list of solution
components, `res[0]` is replaced by `project(res[0]*S, V_DG1)` when a
solubility `S` is present, and `retention = sum(res)`. -/
def retentionPostProcessing (hasS : Bool) (ntraps : ℕ) : FExpr :=
  let res := (List.range (ntraps + 1)).map FExpr.sol
  pySum (if hasS then res.set 0 (.proj (.mul (.sol 0) .sVar)) else res)

/-- State of the transient time-stepping loop in `Simulation.run`:
current time `t` and current stepsize `dt.value`. -/
structure LoopState where
  t : ℚ
  dt : ℚ
deriving DecidableEq, Repr

/-- One call of `Simulation.iterate` (generic_simulation.py lines
429-495) as it acts on `(t, dt)`: `t += dt` happens first; the
nonlinear solve (`FESTIM.solve_it`, whose adaptive-stepsize policy may
replace `dt` by an arbitrary new value, abstracted here as `adapt`)
leaves `t` unchanged; finally `dt` is truncated whenever `t + dt`
would exceed `final_time` ("avoid t > final_time", lines 494-495). -/
def iterateStep (final_time : ℚ) (adapt : ℚ → ℚ) (s : LoopState) :
    LoopState :=
  let t := s.t + s.dt
  let dt1 := adapt s.dt
  ⟨t, if final_time < t + dt1 then final_time - t else dt1⟩

/-- The `while self.t < self.settings.final_time: self.iterate()` loop
of `Simulation.run` (generic_simulation.py lines 392-393), run for at
most `fuel` iterations; `adapt k` is the stepsize adaptation applied by
the k-th solve. -/
def timeStepping (final_time : ℚ) (adapt : ℕ → ℚ → ℚ) :
    ℕ → ℕ → LoopState → LoopState
  | 0, _, s => s
  | fuel + 1, k, s =>
      if s.t < final_time then
        timeStepping final_time adapt fuel (k + 1)
          (iterateStep final_time (adapt k) s)
      else s

/-- The stepping loop of `HydrogenTransportProblem.run`
(hydrogen_transport_problem.py lines 370-415): each iteration does
`t += dt` and solves; `dt` is never modified and no truncation is ever
applied. -/
def hydrogenRun (final_time : ℚ) : ℕ → LoopState → LoopState
  | 0, s => s
  | fuel + 1, s =>
      if s.t < final_time then hydrogenRun final_time fuel ⟨s.t + s.dt, s.dt⟩
      else s

/-- The externally visible steps of the stationary branch of
`Simulation.run`. -/
inductive RunEvent where
  | solveOnce
  | postProcessing
  | writeCSV
  | makeOutput
deriving DecidableEq, Repr

/-- The stationary branch of `Simulation.run` (generic_simulation.py
lines 398-427): `solve_once` reports `converged`; post-processing
always runs (line 407); on convergence the run proceeds to the CSV
export of derived quantities and returns `make_output()` (`.ok`); on
divergence it raises `ValueError` (`.error`, line 418) so the CSV
export and `make_output` never execute.  Returns the events performed
and the outcome. -/
def runStationary (converged : Bool) : List RunEvent × Except String Unit :=
  if converged then
    ([.solveOnce, .postProcessing, .writeCSV, .makeOutput], .ok ())
  else
    ([.solveOnce, .postProcessing], .error "The solver diverged")

/-- The temperature type of a simulation (`self.T.type`). -/
inductive TType where
  | expression
  | solveTransient
  | solveStationary
deriving DecidableEq, Repr

/-- The effects of one `Simulation.iterate` call, in program order. -/
inductive IEvent where
  | advanceTime
  | updateExpressions
  | interpTemperature
  | refreshCoefficients
  | solveTemperature
  | solveMain
  | solveExtrinsicTrap (k : ℕ)
  | postProcessing
  | commitU
  | commitTrapDensity (k : ℕ)
  | clipStepsize
deriving DecidableEq, Repr

/-- Positions of the extrinsic traps in the trap list (`traps` flags
which traps are `FESTIM.ExtrinsicTrap`s). -/
def extrinsicIdxs (traps : List Bool) : List ℕ :=
  (traps.enum.filter (·.2)).map (·.1)

/-- The sequence of effects of one `Simulation.iterate` call
(generic_simulation.py lines 429-495), in source order: advance `t`,
update time-dependent expressions, re-interpolate an expression
temperature (lines 437-440), re-bind the property coefficients'
temperature (`self.D._T = self.T.T` etc., lines 441-447), solve the
transient heat problem if any (lines 461-471), solve the main coupled
system (line 474), solve each extrinsic trap's auxiliary problem
(lines 479-481), run post-processing, commit `u_n` and each extrinsic
trap's previous density (lines 487-490), and clip the stepsize. -/
def iterateEvents (tType : TType) (traps : List Bool) : List IEvent :=
  [.advanceTime, .updateExpressions]
  ++ (if tType = .expression then [.interpTemperature] else [])
  ++ [.refreshCoefficients]
  ++ (if tType = .solveTransient then [.solveTemperature] else [])
  ++ [.solveMain]
  ++ (extrinsicIdxs traps).map .solveExtrinsicTrap
  ++ [.postProcessing, .commitU]
  ++ (extrinsicIdxs traps).map .commitTrapDensity
  ++ [.clipStepsize]

/-- `true` iff every event of `l` matching `P` occurs strictly before
every event matching `Q`. -/
def eventsBefore (P Q : IEvent → Bool) : List IEvent → Bool
  | [] => true
  | e :: rest =>
      (if Q e then !P e && rest.all (fun x => !P x) else true)
      && eventsBefore P Q rest

/-- Is this event an extrinsic-trap auxiliary solve? -/
def isAuxSolve : IEvent → Bool
  | .solveExtrinsicTrap _ => true
  | _ => false

/-- Is this event an overwrite of a previous-value slot (`u_n` or an
extrinsic trap's previous density)? -/
def isCommit : IEvent → Bool
  | .commitU => true
  | .commitTrapDensity _ => true
  | _ => false

/-- The events whose relative order claim C8 is about. -/
def isOrderedEvent : IEvent → Bool
  | .refreshCoefficients => true
  | .solveTemperature => true
  | .solveMain => true
  | .solveExtrinsicTrap _ => true
  | .commitU => true
  | .commitTrapDensity _ => true
  | _ => false

/-- A `"field"` entry of a derived-quantity spec: Python int or str. -/
inductive FieldVal where
  | intF (n : ℤ)
  | strF (s : String)
deriving DecidableEq, Repr

/-- One derived-quantity spec dict: its `"field"` entry if present, and
whether it has `"surfaces"` / `"volumes"` keys. -/
structure DQSpec where
  fieldEntry : Option FieldVal
  hasSurfaces : Bool
  hasVolumes : Bool
deriving DecidableEq, Repr

/-- The `parameters["exports"]["derived_quantities"]` dict (as ordered
key/spec-list pairs) together with `len(parameters["traps"])`. -/
structure DQParams where
  quantities : List (String × List DQSpec)
  ntraps : ℕ
deriving DecidableEq, Repr

/-- Modelled from the spec: `FESTIM.helpers.quantity_types` (not under
src/), the recognized derived-quantity kinds — surface flux,
volume/surface totals, volume average, volume extrema (§3
DerivedQuantitySpec), with the key spellings used throughout
FESTIM/post_processing.py. -/
def quantity_types : List String :=
  ["surface_flux", "average_volume", "minimum_volume", "maximum_volume",
   "total_volume", "total_surface"]

/-- Modelled from the spec: `FESTIM.helpers.field_types` (not under
src/), the recognized field names — the mobile ("solute"), temperature
and retention fields of §4.9, with the label spellings used throughout
FESTIM/post_processing.py. -/
def field_types : List String := ["solute", "retention", "T"]

/-- Python `str.isdigit()` (false on the empty string). -/
def pyIsDigit (s : String) : Bool := s.length > 0 && s.all Char.isDigit

/-- The `"field"` validation of `check_keys_derived_quantities`
(FESTIM/post_processing.py lines 465-483): missing key → `KeyError`;
int outside `0..len(traps)` → `ValueError`; string neither a known
field name nor a digit string within `0..len(traps)` → `ValueError`. -/
def checkField (ntraps : ℕ) : Option FieldVal → Except String Unit
  | none => .error "Missing key 'field'"
  | some (.intF n) =>
      if n > (ntraps : ℤ) ∨ n < 0 then
        .error ("Unknown field: " ++ toString n)
      else .ok ()
  | some (.strF s) =>
      if s ∈ field_types then .ok ()
      else if pyIsDigit s then
        if s.toNat?.getD 0 > ntraps ∨ s.toNat?.getD 0 < 0 then
          .error ("Unknown field: " ++ s)
        else .ok ()
      else .error ("Unknown field: " ++ s)

/-- Validation of one spec dict: the field checks (which may raise),
then the `"surfaces"`/`"volumes"` presence check (lines 485-486). -/
def checkSpec (ntraps : ℕ) (f : DQSpec) : Except String Unit :=
  match checkField ntraps f.fieldEntry with
  | .error e => .error e
  | .ok _ =>
    if ¬ f.hasSurfaces ∧ ¬ f.hasVolumes then
      .error "Missing key 'surfaces' or 'volumes'"
    else .ok ()

/-- Validation of the spec list of one quantity kind, in order; the
first raised exception propagates. -/
def checkSpecs (ntraps : ℕ) : List DQSpec → Except String Unit
  | [] => .ok ()
  | f :: rest =>
    match checkSpec ntraps f with
    | .error e => .error e
    | .ok _ => checkSpecs ntraps rest

/-- Validation of one key of the derived-quantities dict
(FESTIM/post_processing.py lines 460-486): unknown quantity kinds are
rejected, and every spec of a non-`"file"`/`"folder"` key is checked. -/
def checkQuantity (ntraps : ℕ) (kv : String × List DQSpec) :
    Except String Unit :=
  if kv.1 ∉ quantity_types ++ ["file", "folder"] then
    .error ("Unknown quantity: " ++ kv.1)
  else if kv.1 ∉ ["file", "folder"] then checkSpecs ntraps kv.2
  else .ok ()

/-- The loop over the keys of the derived-quantities dict; the first
raised exception propagates. -/
def checkQuantityList (ntraps : ℕ) :
    List (String × List DQSpec) → Except String Unit
  | [] => .ok ()
  | kv :: rest =>
    match checkQuantity ntraps kv with
    | .error e => .error e
    | .ok _ => checkQuantityList ntraps rest

/-- Shallow embedding of `check_keys_derived_quantities`
(FESTIM/post_processing.py lines 446-487). -/
def check_keys_derived_quantities (p : DQParams) : Except String Unit :=
  checkQuantityList p.ntraps p.quantities

/-- A field reference that is "recognized" in the sense of claim C9: a
known field name, or an int / digit-string trap index within
`0..len(traps)` (index 0 denotes the mobile field). -/
def fieldRecognized (ntraps : ℕ) : Option FieldVal → Bool
  | none => false
  | some (.intF n) => decide (0 ≤ n) && decide (n ≤ (ntraps : ℤ))
  | some (.strF s) =>
      decide (s ∈ field_types)
      || (pyIsDigit s && decide (s.toNat?.getD 0 ≤ ntraps))

/-- Coarse phases of `run` in cas_test_solubility.py relevant to claim
C9: variational-problem setup, derived-quantity validation, and the
per-step solve / post-processing pairs. -/
inductive CasEvent where
  | defineFormulation
  | checkDerivedQuantities
  | solveStep (k : ℕ)
  | postProcessStep (k : ℕ)
deriving DecidableEq, Repr

/-- The stepping loop of `run` in cas_test_solubility.py, with `nsteps`
accepted iterations. -/
def casSteppingEvents (nsteps : ℕ) : List CasEvent :=
  (List.range nsteps).flatMap fun k => [.solveStep k, .postProcessStep k]

/-- `run` (cas_test_solubility.py lines 193-295) at the granularity of
claim C9: the variational problem is defined (line 195); when derived
quantities are exported, `header_derived_quantities` validates every
spec via `check_keys_derived_quantities` (lines 217-220 of the run,
line 292 of post_processing.py) before `t = 0` and the stepping loop
(lines 222-295), so a validation failure propagates before any step. -/
def casRun (dq : Option DQParams) (nsteps : ℕ) :
    Except String (List CasEvent) :=
  match dq with
  | none => .ok ([.defineFormulation] ++ casSteppingEvents nsteps)
  | some p =>
    match check_keys_derived_quantities p with
    | .error e => .error e
    | .ok _ => .ok ([.defineFormulation, .checkDerivedQuantities]
        ++ casSteppingEvents nsteps)

/-- Claim C1 as stated, instantiated at a diverged stationary solve:
`Simulation.run` still performs post-processing and returns the output
dictionary rather than raising an exception. -/
def c1ClaimAtDiverged : Prop :=
  RunEvent.postProcessing ∈ (runStationary false).1
  ∧ ∃ u, (runStationary false).2 = Except.ok u

/-- Claim C2 as stated: for any initial stepsize / final-time
combination (and any adaptive-stepsize behaviour of the solver), the
simulation time of an accepted step never exceeds `final_time` — for
the `Simulation` loop and for the `HydrogenTransportProblem.run`
loop. -/
def c2ClaimUniversal : Prop :=
  (∀ (final_time dt0 : ℚ) (adapt : ℕ → ℚ → ℚ) (fuel : ℕ), 0 < dt0 →
    (timeStepping final_time adapt fuel 0 ⟨0, dt0⟩).t ≤ final_time)
  ∧ (∀ (final_time dt0 : ℚ) (fuel : ℕ), 0 < dt0 →
    (hydrogenRun final_time fuel ⟨0, dt0⟩).t ≤ final_time)

/-- Claim C3 as stated, instantiated at `casP1` (transient): capture
and release terms are present, and both rates are entered with
opposite sign into the mobile-species equation and the trap's own
equation. -/
def c3ClaimAtP1 : Prop :=
  casCaptureTerm casM1 0 1 1 ∈ casFormulation casP1 true
  ∧ casReleaseTerm casT1.energy 1 1 ∈ casFormulation casP1 true
  ∧ casCaptureTermMobile casM1 0 1 1 ∈ casFormulation casP1 true
  ∧ casReleaseTermMobile casT1.energy 1 1 ∈ casFormulation casP1 true

/-- The thermal-conductivity material of the C5 counterexample: a plain
numeric `thermal_cond` entry. -/
def matThermal : PropMaterial := ⟨1, [("thermal_cond", .num 5)]⟩

/-- The diffusivity material of the C5 counterexample: a callable
supplied for `D_0`. -/
def matCallableD : PropMaterial := ⟨1, [("D_0", .callable 7), ("E_D", .num 1)]⟩

/-- Claim C5 as stated, instantiated at `matThermal` with `T(x) = 2`:
the thermal-conductivity accessor evaluates the Arrhenius law (the
material supplies no callable). -/
def c5ClaimAtThermal : Prop :=
  ∃ pre E, thermalProp_eval [matThermal] (fun _ => 1) (fun _ => 2)
    "thermal_cond" 0 0 = some (.arrh pre E 2)

/-- Claim C5 as stated, instantiated at `matCallableD` with `T(x) = 2`:
the diffusivity accessor invokes the callable supplied for the
property. -/
def c5ClaimAtCallableDiff : Prop :=
  arheniusCoeff_eval [matCallableD] (fun _ => 1) (fun _ => 2)
    "D_0" "E_D" 0 0 = some (.callRes 7 2)

/-- Claim C8 as stated, at a given temperature type and trap layout:
the temperature problem (when transient) is solved before coefficients
are refreshed; the main solve precedes every auxiliary solve; and
previous-value slots are overwritten only after the main and all
auxiliary solves. -/
def c8ClaimAt (tType : TType) (traps : List Bool) : Prop :=
  (tType = .solveTransient →
    eventsBefore (· == .solveTemperature) (· == .refreshCoefficients)
      (iterateEvents tType traps) = true)
  ∧ eventsBefore (· == .solveMain) isAuxSolve (iterateEvents tType traps) = true
  ∧ eventsBefore (fun e => e == .solveMain || isAuxSolve e) isCommit
      (iterateEvents tType traps) = true

/-- A derived-quantity parameter set whose only spec has a recognized
field but neither a `"surfaces"` nor a `"volumes"` key. -/
def c9BadParams : DQParams :=
  ⟨[("surface_flux", [⟨some (.strF "solute"), false, false⟩])], 0⟩

/-- Claim C9 as stated ("specs whose fields are all recognized pass
validation"), instantiated at `c9BadParams`. -/
def c9ClaimAtBad : Prop :=
  check_keys_derived_quantities c9BadParams = .ok ()

/-- A material carrying a solubility law. -/
def matS0 : PropMaterial := ⟨1, [("S_0", .num 2), ("E_S", .num 1)]⟩

/-- C10: `HydrogenTransportProblem.create_formulation` raises exactly
when more than one volumetric source is declared, and with exactly one
source no exception is raised and no source term is added — the
formulation is identical to the zero-source formulation. -/
theorem c10_single_source_ignored (n : ℕ) (vols : List ℕ)
    (srcs : List HSource) :
    ((∃ e, create_formulation ⟨n, vols, srcs⟩ = .error e)
      ↔ 1 < srcs.length)
    ∧ ∀ s : HSource,
        create_formulation ⟨n, vols, [s]⟩ = create_formulation ⟨n, vols, []⟩ := by
  constructor
  · by_cases h : 1 < srcs.length
    · simp [create_formulation, h]
    · simp [create_formulation, h]
  · intro s
    simp [create_formulation]

/-- C4 (code evaluated at the failing input): in stationary mode the
residual built by `formulation` still contains a time-derivative term —
the trap-to-mobile coupling term
`((solutions[1]-previous_solutions[1])/dt)*testfunctions[0]*dx` is
added outside the `if transient` guard (cas_test_solubility.py lines
70-71, with `dt = 0` in stationary runs). -/
theorem c4_stationary_residual_has_dt_term :
    (casFormulation casP1 false).filter (fun t => mentionsDt t.1)
      = [casCouplingTerm 1]
    ∧ casCouplingTerm 1 ∈ casFormulation casP1 false := by
  exact ⟨rfl, by decide⟩

/-- C1 counterexample: at a diverged stationary solve, `Simulation.run`
does perform post-processing but then raises `ValueError` instead of
returning the output dictionary, refuting the claim. -/
theorem c1_counterexample :
    RunEvent.postProcessing ∈ (runStationary false).1
    ∧ (runStationary false).2 = Except.error "The solver diverged"
    ∧ ¬ c1ClaimAtDiverged := by
  refine ⟨by decide, rfl, ?_⟩
  rintro ⟨-, u, hu⟩
  simp [runStationary] at hu

/-- C1 (amended): a diverged final stationary solve performs
post-processing but then raises `ValueError`; the run's outcome is the
exception, and neither the derived-quantity CSV export nor
`make_output` is reached. -/
theorem c1_amended_diverged_raises :
    RunEvent.postProcessing ∈ (runStationary false).1
    ∧ (∃ e, (runStationary false).2 = Except.error e)
    ∧ RunEvent.writeCSV ∉ (runStationary false).1
    ∧ RunEvent.makeOutput ∉ (runStationary false).1 := by
  exact ⟨by decide, ⟨_, rfl⟩, by decide, by decide⟩

/-- C3 counterexample: in the transient residual for `casP1`, the only
terms entering the mobile-species equation are its time-derivative
term, its diffusion term and the trap-coupling time-derivative term —
the capture and release rates are never entered (with any sign) into
the mobile-species equation, refuting the claim. -/
theorem c3_counterexample :
    (casFormulation casP1 true).filter (fun t => usesTest 0 t.1)
      = [casMobileDtTerm casM1, casDiffusionTerm casM1, casCouplingTerm 1]
    ∧ ¬ c3ClaimAtP1 := by
  refine ⟨rfl, ?_⟩
  rintro ⟨-, -, h3, -⟩
  exact absurd h3 (by decide)

/-- C5 counterexample: for a material whose `thermal_cond` entry is the
plain number 5, `ThermalProp` returns 5 itself, not an Arrhenius value;
and for a material supplying a callable as `D_0`, `ArheniusCoeff` does
not invoke it (it fails), refuting the claim. -/
theorem c5_counterexample :
    thermalProp_eval [matThermal] (fun _ => 1) (fun _ => 2)
      "thermal_cond" 0 0 = some (.num 5)
    ∧ ¬ c5ClaimAtThermal
    ∧ arheniusCoeff_eval [matCallableD] (fun _ => 1) (fun _ => 2)
      "D_0" "E_D" 0 0 = none
    ∧ ¬ c5ClaimAtCallableDiff := by
  have h0 : thermalProp_eval [matThermal] (fun _ => 1) (fun _ => 2)
      "thermal_cond" 0 0 = some (.num 5) := rfl
  refine ⟨h0, ?_, rfl, fun h => Option.noConfusion h⟩
  rintro ⟨pre, E, h⟩
  rw [h0] at h
  exact PVal.noConfusion (Option.some.inj h)

/-- C8 counterexample: with a transient temperature and one extrinsic
trap, `Simulation.iterate` re-binds the property coefficients (lines
441-447) before solving the temperature problem (lines 461-471), so
the claimed "temperature solved before coefficients refreshed"
ordering fails. -/
theorem c8_counterexample : ¬ c8ClaimAt .solveTransient [true] := by
  unfold c8ClaimAt
  decide

/-- C9 counterexample: a `surface_flux` spec whose field `"solute"` is
recognized but which carries neither a `"surfaces"` nor a `"volumes"`
key is rejected by `check_keys_derived_quantities`, refuting the
claim's "conversely, specs whose fields are all recognized pass
validation". -/
theorem c9_counterexample :
    fieldRecognized 0 (some (.strF "solute")) = true
    ∧ check_keys_derived_quantities c9BadParams
        = .error "Missing key 'surfaces' or 'volumes'"
    ∧ ¬ c9ClaimAtBad := by
  have h0 : check_keys_derived_quantities c9BadParams
      = .error "Missing key 'surfaces' or 'volumes'" := rfl
  refine ⟨by decide, h0, ?_⟩
  intro h
  unfold c9ClaimAtBad at h
  rw [h0] at h
  exact Except.noConfusion h

/-- C2 counterexample: an initial stepsize 5 with final time 3 makes
the very first accepted step of the `Simulation` loop land at t = 5 > 3
(the clipping only runs after a step), and the
`HydrogenTransportProblem.run` loop with stepsize 2 and final time 3
lands at t = 4 > 3 (it never clips), refuting the claim. -/
theorem c2_counterexample :
    (timeStepping 3 (fun _ d => d) 1 0 ⟨0, 5⟩).t = 5
    ∧ (hydrogenRun 3 2 ⟨0, 2⟩).t = 4
    ∧ ¬ c2ClaimUniversal := by
  have e1 : (timeStepping 3 (fun _ d => d) 1 0 ⟨0, 5⟩).t = 5 := by
    norm_num [timeStepping, iterateStep]
  have e2 : (hydrogenRun 3 2 ⟨0, 2⟩).t = 4 := by
    norm_num [hydrogenRun]
  refine ⟨e1, e2, ?_⟩
  rintro ⟨h1, -⟩
  have h := h1 3 5 (fun _ d => d) 1 (by norm_num)
  rw [e1] at h
  norm_num at h

/-- Invariant of one `Simulation.iterate` call: if the pending
candidate step cannot overshoot, then after the step the new time is
within `final_time` and (thanks to the clip at lines 494-495) the next
candidate step cannot overshoot either. -/
theorem iterateStep_bounds (T : ℚ) (adapt : ℚ → ℚ) (s : LoopState)
    (h : s.t + s.dt ≤ T) :
    (iterateStep T adapt s).t ≤ T
    ∧ (iterateStep T adapt s).t + (iterateStep T adapt s).dt ≤ T := by
  unfold iterateStep
  dsimp only
  refine ⟨h, ?_⟩
  split
  · linarith
  · next hnot => linarith [not_lt.1 hnot]

/-- The invariant carried through the whole stepping loop. -/
theorem timeStepping_bounds (T : ℚ) (adapt : ℕ → ℚ → ℚ) :
    ∀ (fuel k : ℕ) (s : LoopState), s.t ≤ T → s.t + s.dt ≤ T →
      (timeStepping T adapt fuel k s).t ≤ T
      ∧ (timeStepping T adapt fuel k s).t
          + (timeStepping T adapt fuel k s).dt ≤ T
  | 0, _, _, h1, h2 => ⟨h1, h2⟩
  | fuel + 1, k, s, h1, h2 => by
      unfold timeStepping
      split
      · exact timeStepping_bounds T adapt fuel (k + 1) _
          (iterateStep_bounds T (adapt k) s h2).1
          (iterateStep_bounds T (adapt k) s h2).2
      · exact ⟨h1, h2⟩

/-- C2 (amended): in the transient loop of `Simulation.run` the
stepsize is truncated at the end of every `iterate` call, so — provided
the initial stepsize is positive and does not exceed `final_time` — the
time of every accepted step stays at most `final_time`, and once the
loop condition fails the final time has been hit exactly.  (The initial
stepsize itself is never truncated, and `HydrogenTransportProblem.run`
never truncates: those are the counterexample's two overshoots.) -/
theorem c2_amended_no_overshoot (T dt0 : ℚ) (adapt : ℕ → ℚ → ℚ)
    (fuel : ℕ) (hdt0 : 0 < dt0) (hdt : dt0 ≤ T) :
    (timeStepping T adapt fuel 0 ⟨0, dt0⟩).t ≤ T
    ∧ (¬ (timeStepping T adapt fuel 0 ⟨0, dt0⟩).t < T →
        (timeStepping T adapt fuel 0 ⟨0, dt0⟩).t = T) := by
  have hb := timeStepping_bounds T adapt fuel 0 ⟨0, dt0⟩
    (by dsimp; linarith) (by dsimp; linarith)
  exact ⟨hb.1, fun hstop => le_antisymm hb.1 (not_lt.1 hstop)⟩

/-- Witness for `c2_amended_no_overshoot` at `final_time = 3`,
initial stepsize 1, identity adaptation, fuel 9. -/
theorem c2_amended_no_overshoot_witness :
    (0 : ℚ) < 1 ∧ (1 : ℚ) ≤ 3
    ∧ (timeStepping 3 (fun _ d => d) 9 0 ⟨0, 1⟩).t ≤ 3 := by
  refine ⟨by norm_num, by norm_num, ?_⟩
  exact (c2_amended_no_overshoot 3 1 (fun _ d => d) 9 (by norm_num)
    (by norm_num)).1

/-- Any term contributed by the k-th trap belongs to the full residual
built by `formulation`. -/
theorem mem_casFormulation_of_mem_trapTerms (p : CasParameters)
    (transient : Bool) (k : ℕ) (trap : CasTrap)
    (hk : p.traps[k]? = some trap) (x : FExpr × Meas)
    (hx : x ∈ casTrapTerms p transient k trap) :
    x ∈ casFormulation p transient :=
  List.mem_append_right _
    (List.mem_flatMap.2 ⟨(k, trap), List.mk_mem_enum_iff_getElem?.2 hk, hx⟩)

/-- C3 (amended): for every trap and every subdomain it lives on, the
residual contains the capture term (with negative sign) and the release
term (with positive sign) in the trap's own equation, while the
mobile-species equation is coupled to the trap through the trap's
time-derivative term `((c_trap - c_trap_prev)/dt) * v_mobile` (added
once per trap, in every mode) — not through the capture/release rates
themselves. -/
theorem c3_amended_trap_terms (p : CasParameters) (transient : Bool)
    (k : ℕ) (trap : CasTrap) (hk : p.traps[k]? = some trap) (sub : ℕ)
    (hsub : sub ∈ trap.materials) (m : CasMaterial)
    (hm : find_material_from_id p.materials sub = some m) :
    casCaptureTerm m k (k + 1) sub ∈ casFormulation p transient
    ∧ casReleaseTerm trap.energy (k + 1) sub ∈ casFormulation p transient
    ∧ casCouplingTerm (k + 1) ∈ casFormulation p transient := by
  have hmem : ∀ x ∈ casTrapTerms p transient k trap,
      x ∈ casFormulation p transient :=
    fun x hx => mem_casFormulation_of_mem_trapTerms p transient k trap hk x hx
  refine ⟨hmem _ ?_, hmem _ ?_, hmem _ ?_⟩ <;>
    simp only [casTrapTerms, List.mem_append, List.mem_flatMap]
  · exact Or.inl (Or.inr ⟨sub, hsub, by rw [hm]; simp⟩)
  · exact Or.inl (Or.inr ⟨sub, hsub, by rw [hm]; simp⟩)
  · exact Or.inr (by simp)

/-- Witness for `c3_amended_trap_terms` at the concrete parameter set
`casP1`. -/
theorem c3_amended_trap_terms_witness :
    casP1.traps[0]? = some casT1
    ∧ (1 : ℕ) ∈ casT1.materials
    ∧ find_material_from_id casP1.materials 1 = some casM1
    ∧ casCaptureTerm casM1 0 1 1 ∈ casFormulation casP1 true := by
  refine ⟨rfl, by decide, rfl, ?_⟩
  exact (c3_amended_trap_terms casP1 true 0 casT1 rfl 1 (by decide) casM1
    rfl).1

/-- C5 (amended): `ArheniusCoeff` always evaluates the Arrhenius law
from the stored numeric pre-exponential factor and activation energy
(no callable dispatch), while `ThermalProp` (thermal conductivity, heat
capacity, density) invokes a stored callable with `T(x)` and otherwise
returns the stored constant itself — not an Arrhenius value. -/
theorem c5_amended_property_accessors (materials : List PropMaterial)
    (vm : ℕ → ℕ) (T : ℚ → ℚ) (preKey eKey key : String) (cell : ℕ)
    (x : ℚ) (m : PropMaterial)
    (hfind : findPropMaterial materials (vm cell) = some m) :
    (∀ pre E : ℚ, matLookup m preKey = some (.num pre) →
        matLookup m eKey = some (.num E) →
        arheniusCoeff_eval materials vm T preKey eKey cell x
          = some (.arrh pre E (T x)))
    ∧ (∀ fid, matLookup m key = some (.callable fid) →
        thermalProp_eval materials vm T key cell x
          = some (.callRes fid (T x)))
    ∧ (∀ q, matLookup m key = some (.num q) →
        thermalProp_eval materials vm T key cell x = some (.num q)) := by
  refine ⟨?_, ?_, ?_⟩ <;> intros <;>
    simp [arheniusCoeff_eval, thermalProp_eval, hfind, *]

/-- Witness for `c5_amended_property_accessors` at `matThermal`. -/
theorem c5_amended_property_accessors_witness :
    findPropMaterial [matThermal] 1 = some matThermal
    ∧ matLookup matThermal "thermal_cond" = some (.num 5)
    ∧ thermalProp_eval [matThermal] (fun _ => 1) (fun _ => 2)
        "thermal_cond" 0 0 = some (.num 5) := by
  refine ⟨rfl, rfl, ?_⟩
  exact (c5_amended_property_accessors [matThermal] (fun _ => 1)
    (fun _ => 2) "D_0" "E_D" "thermal_cond" 0 0 matThermal rfl).2.2 5 rfl

/-- The diffusion term of every material is in the residual built by
`formulation` — and its transported quantity is the solubility-scaled
variable `S_0*exp(-E_S/k_B/T)*solutions[0]` inside the gradient. -/
theorem casDiffusionTerm_mem (p : CasParameters) (transient : Bool)
    (m : CasMaterial) (hm : m ∈ p.materials) :
    casDiffusionTerm m ∈ casFormulation p transient :=
  List.mem_append_left _
    (List.mem_flatMap.2 ⟨m, hm, by cases transient <;> simp⟩)

/-- C6: whenever some material has a solubility law, `chemical_pot` is
set, every flux boundary form is built from the substituted solute
`solutions[0]*S`, the mobile post-processing solution is
`project(theta*S)`, the `"solute"` label resolves to `theta*S` (possibly
projected), and in the cas formulation the transported mobile quantity
inside the diffusion term is the solubility-scaled variable. -/
theorem c6_chemical_potential_substitution (materials : List PropMaterial)
    (hS : ∃ m ∈ materials, hasKey m "S_0" = true) (bcs : List BCspec)
    (ntraps : ℕ) (needProject : Bool) :
    chemicalPot materials = true
    ∧ (∀ t mea, (t, mea) ∈ createHFluxes (chemicalPot materials) bcs →
        ∃ i surf,
          t = FExpr.mul (.neg (.test 0)) (.bcFlux i (.mul (.sol 0) .sVar))
          ∧ mea = Meas.dsS surf)
    ∧ (updatePostProcessingSolutions (chemicalPot materials) ntraps).head?
        = some (.proj (.mul (.sol 0) .sVar))
    ∧ (labelToFunctionSolute (chemicalPot materials) needProject ntraps
          = FExpr.mul (.sol 0) .sVar
        ∨ labelToFunctionSolute (chemicalPot materials) needProject ntraps
          = FExpr.proj (.mul (.sol 0) .sVar))
    ∧ (∀ (p : CasParameters) (transient : Bool) (m : CasMaterial),
        m ∈ p.materials → casDiffusionTerm m ∈ casFormulation p transient) := by
  have hchem : chemicalPot materials = true := by
    unfold chemicalPot
    rw [List.any_eq_true]
    obtain ⟨m, hm, h⟩ := hS
    exact ⟨m, hm, h⟩
  rw [hchem]
  refine ⟨rfl, ?_, ?_, ?_, fun p transient m hm => casDiffusionTerm_mem p transient m hm⟩
  · intro t mea h
    simp only [createHFluxes, List.mem_flatMap, if_pos] at h
    obtain ⟨ib, hib, hmem⟩ := h
    by_cases hc : ib.2.component ≠ "T" ∧ ib.2.bctype ∉ bc_types_dc
    · rw [if_pos hc] at hmem
      obtain ⟨surf, hsurf, heq⟩ := List.mem_map.1 hmem
      obtain ⟨h1, h2⟩ := Prod.mk.injEq .. ▸ heq
      exact ⟨ib.1, surf, h1.symm, h2.symm⟩
    · rw [if_neg hc] at hmem
      exact absurd hmem (List.not_mem_nil _)
  · unfold updatePostProcessingSolutions
    rw [if_pos rfl, List.range_succ_eq_map]
    simp
  · unfold labelToFunctionSolute
    cases needProject
    · exact Or.inl (by simp)
    · exact Or.inr (by simp)

/-- Witness for `c6_chemical_potential_substitution` at the
one-material configuration `[matS0]`. -/
theorem c6_chemical_potential_substitution_witness :
    hasKey matS0 "S_0" = true
    ∧ chemicalPot [matS0] = true
    ∧ (updatePostProcessingSolutions (chemicalPot [matS0]) 2).head?
        = some (.proj (.mul (.sol 0) .sVar)) := by
  have h := c6_chemical_potential_substitution [matS0]
    ⟨matS0, by decide, by decide⟩ [] 2 false
  exact ⟨by decide, h.1, h.2.2.1⟩

/-- Evaluation of a left fold of `add`. -/
theorem evalF_foldl_add (env : Env) :
    ∀ (l : List FExpr) (init : FExpr),
      evalF env (l.foldl .add init)
        = evalF env init + (l.map (evalF env)).sum
  | [], init => by simp
  | a :: l, init => by
      simp only [List.foldl_cons, List.map_cons, List.sum_cons]
      rw [evalF_foldl_add env l (init.add a)]
      show evalF env init + evalF env a + _ = _
      ring

/-- Evaluation of Python's `sum` over a list of expressions. -/
theorem evalF_pySum (env : Env) (l : List FExpr) :
    evalF env (pySum l) = (l.map (evalF env)).sum := by
  unfold pySum
  rw [evalF_foldl_add]
  show (0 : ℚ) + _ = _
  ring

/-- The post-processing solution list with the chemical potential
active: the projected `theta*S` followed by the trap components. -/
theorem updatePostProcessingSolutions_true (ntraps : ℕ) :
    updatePostProcessingSolutions true ntraps
      = .proj (.mul (.sol 0) .sVar)
        :: (List.range ntraps).map (fun i => .sol (i + 1)) := by
  unfold updatePostProcessingSolutions
  rw [if_pos rfl, List.range_succ_eq_map]
  simp [Function.comp_def]

/-- The post-processing solution list without the chemical potential:
the raw components. -/
theorem updatePostProcessingSolutions_false (ntraps : ℕ) :
    updatePostProcessingSolutions false ntraps
      = .sol 0 :: (List.range ntraps).map (fun i => .sol (i + 1)) := by
  unfold updatePostProcessingSolutions
  rw [List.range_succ_eq_map]
  simp [Function.comp_def]

/-- C7: in both post-processing pipelines the `"retention"` field
evaluates to the mobile concentration plus the sum of all trap
concentrations, the mobile term being the rescaled `theta*S` exactly
when the chemical-potential change of variable is active. -/
theorem c7_retention_total_inventory (env : Env) (ntraps : ℕ) :
    (evalF env (retentionGeneric true ntraps)
      = env.sol 0 * env.sVar
        + ((List.range ntraps).map fun i => env.sol (i + 1)).sum)
    ∧ (evalF env (retentionGeneric false ntraps)
      = env.sol 0
        + ((List.range ntraps).map fun i => env.sol (i + 1)).sum)
    ∧ (evalF env (retentionPostProcessing true ntraps)
      = env.sol 0 * env.sVar
        + ((List.range ntraps).map fun i => env.sol (i + 1)).sum)
    ∧ (evalF env (retentionPostProcessing false ntraps)
      = env.sol 0
        + ((List.range ntraps).map fun i => env.sol (i + 1)).sum) := by
  have hpp : ∀ b, retentionPostProcessing b ntraps
      = pySum (updatePostProcessingSolutions b ntraps) := fun b => rfl
  have hgen : ∀ b, retentionGeneric b ntraps
      = pySum (updatePostProcessingSolutions b ntraps) := fun b => rfl
  refine ⟨?_, ?_, ?_, ?_⟩ <;>
    simp [hpp, hgen, evalF_pySum, updatePostProcessingSolutions_true,
      updatePostProcessingSolutions_false, List.map_map, Function.comp_def,
      evalF]

/-- C8 (amended): within every `Simulation.iterate` call the ordered
effects are — coefficient re-binding first (which, being a by-reference
binding to the temperature function, still exposes the subsequently
solved temperature to assembly), then the temperature solve when the
temperature is a transient unknown, then the main solve, then every
extrinsic-trap auxiliary solve, and only after all of these the
previous-value overwrites (`u_n`, then each trap's previous density). -/
theorem c8_amended_step_order (tType : TType) (traps : List Bool) :
    (iterateEvents tType traps).filter isOrderedEvent
      = [IEvent.refreshCoefficients]
        ++ (if tType = .solveTransient then [IEvent.solveTemperature] else [])
        ++ [IEvent.solveMain]
        ++ (extrinsicIdxs traps).map IEvent.solveExtrinsicTrap
        ++ [IEvent.commitU]
        ++ (extrinsicIdxs traps).map IEvent.commitTrapDensity := by
  have hsolve : ∀ l : List ℕ,
      (l.map IEvent.solveExtrinsicTrap).filter isOrderedEvent
        = l.map IEvent.solveExtrinsicTrap := fun l =>
    List.filter_eq_self.2 (by
      intro a ha
      obtain ⟨k, -, rfl⟩ := List.mem_map.1 ha
      rfl)
  have hcommit : ∀ l : List ℕ,
      (l.map IEvent.commitTrapDensity).filter isOrderedEvent
        = l.map IEvent.commitTrapDensity := fun l =>
    List.filter_eq_self.2 (by
      intro a ha
      obtain ⟨k, -, rfl⟩ := List.mem_map.1 ha
      rfl)
  cases tType <;>
    simp [iterateEvents, List.filter_append, hsolve, hcommit,
      List.filter, isOrderedEvent]

/-- The field validation succeeds exactly on recognized field
references. -/
theorem checkField_ok_iff (ntraps : ℕ) (fv : Option FieldVal) :
    checkField ntraps fv = .ok () ↔ fieldRecognized ntraps fv = true := by
  cases fv with
  | none => simp [checkField, fieldRecognized]
  | some v =>
    cases v with
    | intF n =>
      simp only [checkField, fieldRecognized, Bool.and_eq_true,
        decide_eq_true_eq]
      split
      · next h => exact iff_of_false (by simp) (by omega)
      · next h => exact iff_of_true rfl (by omega)
    | strF s =>
      simp only [checkField, fieldRecognized, Bool.or_eq_true,
        Bool.and_eq_true, decide_eq_true_eq]
      split_ifs with h1 h2 h3
      · exact iff_of_true rfl (Or.inl h1)
      · refine iff_of_false (by simp) ?_
        rintro (h | ⟨-, h⟩)
        · exact h1 h
        · omega
      · exact iff_of_true rfl (Or.inr ⟨h2, by omega⟩)
      · refine iff_of_false (by simp) ?_
        rintro (h | ⟨h, -⟩)
        · exact h1 h
        · exact h2 h

/-- One spec passes validation exactly when its field is recognized and
it carries a `"surfaces"` or `"volumes"` key. -/
theorem checkSpec_ok_iff (ntraps : ℕ) (f : DQSpec) :
    checkSpec ntraps f = .ok () ↔
      fieldRecognized ntraps f.fieldEntry = true
      ∧ (f.hasSurfaces = true ∨ f.hasVolumes = true) := by
  unfold checkSpec
  cases hf : checkField ntraps f.fieldEntry with
  | error e =>
    have : ¬ fieldRecognized ntraps f.fieldEntry = true := by
      rw [← checkField_ok_iff, hf]
      simp
    simp [this]
  | ok u =>
    cases u
    have : fieldRecognized ntraps f.fieldEntry = true :=
      (checkField_ok_iff ntraps f.fieldEntry).1 hf
    simp only [this, true_and]
    split_ifs with h
    · exact iff_of_false (by simp) (by
        rintro (hs | hv)
        · exact h.1 hs
        · exact h.2 hv)
    · rw [Classical.not_and_iff_or_not_not] at h
      refine iff_of_true rfl ?_
      rcases h with h | h
      · exact Or.inl (by simpa using h)
      · exact Or.inr (by simpa using h)

/-- A spec list passes validation exactly when every spec does. -/
theorem checkSpecs_ok_iff (ntraps : ℕ) :
    ∀ l : List DQSpec,
      checkSpecs ntraps l = .ok () ↔
        ∀ f ∈ l, checkSpec ntraps f = .ok ()
  | [] => by simp [checkSpecs]
  | f :: rest => by
      cases hf : checkSpec ntraps f with
      | error e => simp [checkSpecs, hf]
      | ok u =>
        cases u
        simp [checkSpecs, hf, checkSpecs_ok_iff ntraps rest]

/-- One quantity key passes validation exactly when it is a recognized
kind and (unless it is `"file"`/`"folder"` metadata) all its specs
pass. -/
theorem checkQuantity_ok_iff (ntraps : ℕ) (kv : String × List DQSpec) :
    checkQuantity ntraps kv = .ok () ↔
      kv.1 ∈ quantity_types ++ ["file", "folder"]
      ∧ (kv.1 ∉ (["file", "folder"] : List String) →
          ∀ f ∈ kv.2, fieldRecognized ntraps f.fieldEntry = true
            ∧ (f.hasSurfaces = true ∨ f.hasVolumes = true)) := by
  unfold checkQuantity
  by_cases h1 : kv.1 ∈ quantity_types ++ ["file", "folder"]
  · rw [if_neg (not_not_intro h1)]
    by_cases h2 : kv.1 ∈ (["file", "folder"] : List String)
    · rw [if_neg (not_not_intro h2)]
      exact iff_of_true rfl ⟨h1, fun hn => absurd h2 hn⟩
    · rw [if_pos h2, checkSpecs_ok_iff]
      constructor
      · intro hok
        exact ⟨h1, fun _ f hf => (checkSpec_ok_iff ntraps f).1 (hok f hf)⟩
      · rintro ⟨-, himp⟩ f hf
        exact (checkSpec_ok_iff ntraps f).2 (himp h2 f hf)
  · rw [if_pos h1]
    exact iff_of_false (by simp) (fun hc => h1 hc.1)

/-- The key loop passes exactly when every key passes. -/
theorem checkQuantityList_ok_iff (ntraps : ℕ) :
    ∀ l : List (String × List DQSpec),
      checkQuantityList ntraps l = .ok () ↔
        ∀ kv ∈ l, checkQuantity ntraps kv = .ok ()
  | [] => by simp [checkQuantityList]
  | kv :: rest => by
      cases hkv : checkQuantity ntraps kv with
      | error e => simp [checkQuantityList, hkv]
      | ok u =>
        cases u
        simp [checkQuantityList, hkv, checkQuantityList_ok_iff ntraps rest]

/-- C9 (amended): `check_keys_derived_quantities` accepts a parameter
set exactly when every derived-quantity kind is recognized and every
spec has a recognized field reference AND a `"surfaces"` or
`"volumes"` key; and any validation failure is raised by the setup
phase of `run` (before `t = 0`), so the run aborts with that error
before any time step executes. -/
theorem c9_amended_validation (p : DQParams) :
    (check_keys_derived_quantities p = .ok () ↔
      ∀ kv ∈ p.quantities,
        kv.1 ∈ quantity_types ++ ["file", "folder"]
        ∧ (kv.1 ∉ (["file", "folder"] : List String) →
            ∀ f ∈ kv.2, fieldRecognized p.ntraps f.fieldEntry = true
              ∧ (f.hasSurfaces = true ∨ f.hasVolumes = true)))
    ∧ (∀ e nsteps, check_keys_derived_quantities p = .error e →
        casRun (some p) nsteps = .error e) := by
  constructor
  · rw [check_keys_derived_quantities, checkQuantityList_ok_iff]
    constructor
    · intro h kv hkv
      exact (checkQuantity_ok_iff p.ntraps kv).1 (h kv hkv)
    · intro h kv hkv
      exact (checkQuantity_ok_iff p.ntraps kv).2 (h kv hkv)
  · intro e nsteps h
    simp [casRun, h]

/-- Witness for `c9_amended_validation`: the invalid parameter set
`c9BadParams` makes the run abort during setup with the validation
error. -/
theorem c9_amended_validation_witness :
    casRun (some c9BadParams) 3
      = .error "Missing key 'surfaces' or 'volumes'" :=
  (c9_amended_validation c9BadParams).2
    "Missing key 'surfaces' or 'volumes'" 3 rfl

end FESTIM
